import Mathlib

/-
Verification of the watch-resume state machine in
src/kube/src/runtime/informer.rs (the `Informer` type).

The embedding translates the Rust source into pure Lean:
- the shared mutable cells (`Arc<Mutex<String>>`, `Arc<Mutex<bool>>`) become
  fields of an explicit `Informer` state record that is threaded through
  every operation;
- the async stream returned by `poll` is modelled as the finite list of
  items the transport delivers before the server closes the stream; the
  `.then` interception stage becomes a fold (`processStream`) that both
  updates the state per item and re-yields each item;
- `delay_for(Duration::from_secs(10))` is recorded as the literal `10`
  appended to a list of performed waits, so theorems can count backoff
  waits and inspect their durations;
- the `Meta::resource_ver` capability of the watched type `K` is passed
  explicitly as a function `rv : K → Option String`;
- the transport (`Client::request_events`) is passed as a function from
  the built request to either a connection error or the item list.
-/

namespace KubeRuntime

/-- Modelled from the spec: the resource descriptor is an external
collaborator (not under src/); the informer only stores it, reads
`kind` for logging, and passes it to request construction. -/
structure Resource where
  kind : String
  apiUrl : String
  deriving DecidableEq

/-- Modelled from the spec: the query parameters (`ListParams`) are an
external collaborator; the informer stores them and passes them to
request construction unchanged. -/
structure ListParams where
  fieldSelector : Option String
  labelSelector : Option String
  timeout : Option Nat
  deriving DecidableEq

/-- A connection-level or transport-level error (the `Error` in the
source's `Result`). Opaque to the informer. -/
structure KubeError where
  msg : String
  deriving DecidableEq

/-- The payload of an in-stream `WatchEvent::Error`: a server error
response carrying a numeric status code (`e.code` in the source). -/
structure ErrorResponse where
  message : String
  code : Nat
  deriving DecidableEq

/-- `WatchEvent<K>` from the source: a change event over entities of
type `K`, or an in-stream server error. -/
inductive WatchEvent (K : Type) where
  | Added (o : K)
  | Modified (o : K)
  | Deleted (o : K)
  | Error (e : ErrorResponse)
  deriving DecidableEq

/-- One item of the raw event stream: `Result<WatchEvent<K>>` in the
source — either a change event or a transport-level item failure. -/
abbrev WatchItem (K : Type) := Except KubeError (WatchEvent K)

/-- The mutable session state of `Informer<K>`: resume token (`version`),
the two recovery flags, and the immutable descriptor and params. -/
structure Informer where
  version : String
  needs_resync : Bool
  needs_retry : Bool
  resource : Resource
  params : ListParams
  deriving DecidableEq

/-- `Informer::new`: token is the sentinel `0.to_string()`, both flags
cleared. -/
def Informer.new (r : Resource) (p : ListParams) : Informer :=
  { version := "0", needs_resync := false, needs_retry := false,
    resource := r, params := p }

/-- `Informer::init_from`: overwrite the resume token of the session. -/
def Informer.init_from (s : Informer) (v : String) : Informer :=
  { s with version := v }

/-- `Informer::reset`: set the resume token back to `0.to_string()`. -/
def Informer.reset (s : Informer) : Informer :=
  { s with version := "0" }

/-- The watch request built by `self.resource.watch(&self.params,
&resource_version)`. -/
structure WatchRequest where
  resource : Resource
  params : ListParams
  resourceVersion : String
  deriving DecidableEq

/-- Modelled from the spec: `Resource::watch` (external collaborator)
builds the watch request from the descriptor, the query params and the
resume token. -/
def Resource.watch (r : Resource) (p : ListParams) (v : String) : WatchRequest :=
  { resource := r, params := p, resourceVersion := v }

/-- The pre-flight recovery block at the top of `Informer::poll`
(source lines 76–90): if either flag is set, wait 10 seconds, reset the
token if `needs_resync`, then clear both flags. Returns the updated
state and the list of performed backoff waits (durations in seconds). -/
def preflight (s : Informer) : Informer × List Nat :=
  if s.needs_resync || s.needs_retry then
    let s1 := if s.needs_resync then s.reset else s
    ({ s1 with needs_resync := false, needs_retry := false }, [10])
  else
    (s, [])

/-- The per-item interception of the `.then` stage in `Informer::poll`
(source lines 112–132): update the token on Added/Modified/Deleted when
`Meta::resource_ver` yields a value, set `needs_resync` on a 410-coded
Error event, do nothing otherwise. The item itself is re-yielded by
`processStream`. -/
def processEvent {K : Type} (rv : K → Option String) (s : Informer)
    (item : WatchItem K) : Informer :=
  match item with
  | .ok (.Added o) | .ok (.Modified o) | .ok (.Deleted o) =>
    match rv o with
    | some nv => { s with version := nv }
    | none => s
  | .ok (.Error e) =>
    if e.code == 410 then { s with needs_resync := true } else s
  | .error _ => s

/-- Draining the wrapped stream returned by `poll`: each raw item first
updates the session state via `processEvent`, then is yielded unchanged
(source line 133 returns `event` as-is). Returns the final state and
the yielded items in order. -/
def processStream {K : Type} (rv : K → Option String) (s : Informer) :
    List (WatchItem K) → Informer × List (WatchItem K)
  | [] => (s, [])
  | item :: rest =>
    let s1 := processEvent rv s item
    let r := processStream rv s1 rest
    (r.fst, item :: r.snd)

/-- The outcome of one `Informer::poll` call, with the wrapped stream
already fully drained on success: final session state, the backoff
waits performed by this call, the request that was issued, and the
call's result (the yielded items, or the connection-level failure). -/
structure PollResult (K : Type) where
  state : Informer
  waits : List Nat
  request : WatchRequest
  result : Except KubeError (List (WatchItem K))

/-- `Informer::poll` (source lines 72–144): pre-flight recovery check,
request construction from the current token, transport open, then
either the interception transform over the stream (success) or the
failure branch, which sets `needs_retry` to `false` — exactly as the
source does on line 140 — and propagates the error. -/
def poll {K : Type} (rv : K → Option String) (s : Informer)
    (transport : WatchRequest → Except KubeError (List (WatchItem K))) :
    PollResult K :=
  let pf := preflight s
  let req := pf.fst.resource.watch pf.fst.params pf.fst.version
  match transport req with
  | .ok events =>
    { state := (processStream rv pf.fst events).fst
      waits := pf.snd
      request := req
      result := .ok (processStream rv pf.fst events).snd }
  | .error e =>
    { state := { pf.fst with needs_retry := false }
      waits := pf.snd
      request := req
      result := .error e }

/-- The token an item would write to the session, if any: `some v` for a
successful Added/Modified/Deleted whose entity reports version `v`,
`none` otherwise. -/
def versionUpdate {K : Type} (rv : K → Option String) : WatchItem K → Option String
  | .ok (.Added o) => rv o
  | .ok (.Modified o) => rv o
  | .ok (.Deleted o) => rv o
  | _ => none

/-- Whether an item is a successful in-stream Error event with status
code 410 (Gone / history expired). -/
def isGoneItem {K : Type} : WatchItem K → Bool
  | .ok (.Error e) => e.code == 410
  | _ => false

/-- Whether an item is one of the benign cases of the interception: an
in-stream Error with a status code other than 410, or a transport-level
item failure. -/
def benignItem {K : Type} : WatchItem K → Bool
  | .ok (.Error e) => !(e.code == 410)
  | .error _ => true
  | _ => false

/-- Last element of a list, with a default for the empty list. -/
def lastD : List String → String → String
  | [], d => d
  | v :: l, _ => lastD l v

/-
Concrete instances used by witness theorems: the watched type is
`Option String` and the version capability is the identity, so an
entity `some v` reports version `v` and `none` reports no version.
-/

/-- Identity version extraction over `Option String` entities. -/
def rvId : Option String → Option String := id

/-- A concrete resource descriptor. -/
def r0 : Resource := { kind := "Pod", apiUrl := "/api/v1/pods" }

/-- Concrete query parameters. -/
def p0 : ListParams := { fieldSelector := none, labelSelector := none, timeout := some 290 }

/-- A session whose resume token is "42" with both flags clear. -/
def s42 : Informer :=
  { version := "42", needs_resync := false, needs_retry := false,
    resource := r0, params := p0 }

/-- A concrete connection error. -/
def kerr0 : KubeError := { msg := "connection refused" }

/-- A transport whose open always fails at the connection level. -/
def failT : WatchRequest → Except KubeError (List (WatchItem (Option String))) :=
  fun _ => Except.error kerr0

/-- A transport that opens successfully and delivers no events. -/
def emptyT : WatchRequest → Except KubeError (List (WatchItem (Option String))) :=
  fun _ => Except.ok []

/-- A single-item stream holding a 410-coded in-stream error event. -/
def goneEvs : List (WatchItem (Option String)) :=
  [Except.ok (WatchEvent.Error { message := "too old resource version", code := 410 })]

/-- A stream of two successful events carrying tokens "1" and "3". -/
def trackEvs : List (WatchItem (Option String)) :=
  [Except.ok (WatchEvent.Added (some "1")),
   Except.ok (WatchEvent.Modified (some "3"))]

/-- A stream of one non-410 error event and one transport item failure. -/
def benignEvs : List (WatchItem (Option String)) :=
  [Except.ok (WatchEvent.Error { message := "internal error", code := 500 }),
   Except.error kerr0]

/-
Helper lemmas about the embedding.
-/

theorem processEvent_version {K : Type} (rv : K → Option String) (s : Informer)
    (item : WatchItem K) :
    (processEvent rv s item).version = (versionUpdate rv item).getD s.version := by
  cases item with
  | error e => rfl
  | ok ev =>
    cases ev with
    | Added o => simp only [processEvent, versionUpdate]; cases rv o <;> rfl
    | Modified o => simp only [processEvent, versionUpdate]; cases rv o <;> rfl
    | Deleted o => simp only [processEvent, versionUpdate]; cases rv o <;> rfl
    | Error e => simp only [processEvent, versionUpdate]; split <;> rfl

theorem processEvent_needs_resync {K : Type} (rv : K → Option String) (s : Informer)
    (item : WatchItem K) :
    (processEvent rv s item).needs_resync = (s.needs_resync || isGoneItem item) := by
  cases item with
  | error e => simp [processEvent, isGoneItem]
  | ok ev =>
    cases ev with
    | Added o => simp only [processEvent, isGoneItem]; cases rv o <;> simp
    | Modified o => simp only [processEvent, isGoneItem]; cases rv o <;> simp
    | Deleted o => simp only [processEvent, isGoneItem]; cases rv o <;> simp
    | Error e =>
      simp only [processEvent, isGoneItem]
      by_cases h : e.code == 410 <;> simp [h]

theorem processEvent_benign {K : Type} (rv : K → Option String) (s : Informer)
    (item : WatchItem K) (hb : benignItem item = true) :
    processEvent rv s item = s := by
  cases item with
  | error e => rfl
  | ok ev =>
    cases ev with
    | Added o => simp [benignItem] at hb
    | Modified o => simp [benignItem] at hb
    | Deleted o => simp [benignItem] at hb
    | Error e =>
      simp only [benignItem, Bool.not_eq_true'] at hb
      simp [processEvent, hb]

theorem processStream_snd {K : Type} (rv : K → Option String) (s : Informer)
    (evs : List (WatchItem K)) :
    (processStream rv s evs).snd = evs := by
  induction evs generalizing s with
  | nil => rfl
  | cons item rest ih => simp [processStream, ih]

theorem processStream_version {K : Type} (rv : K → Option String) (s : Informer)
    (evs : List (WatchItem K)) :
    (processStream rv s evs).fst.version =
      lastD (evs.filterMap (versionUpdate rv)) s.version := by
  induction evs generalizing s with
  | nil => rfl
  | cons item rest ih =>
    simp only [processStream, List.filterMap_cons]
    cases h : versionUpdate rv item with
    | none =>
      have hv : (processEvent rv s item).version = s.version := by
        rw [processEvent_version, h]; rfl
      rw [ih, hv]
    | some v =>
      have hv : (processEvent rv s item).version = v := by
        rw [processEvent_version, h]; rfl
      simp only [lastD]
      rw [ih, hv]

theorem processStream_needs_resync {K : Type} (rv : K → Option String) (s : Informer)
    (evs : List (WatchItem K)) :
    (processStream rv s evs).fst.needs_resync =
      (s.needs_resync || evs.any isGoneItem) := by
  induction evs generalizing s with
  | nil => simp [processStream]
  | cons item rest ih =>
    simp only [processStream, List.any_cons]
    rw [ih, processEvent_needs_resync, Bool.or_assoc]

theorem lastD_eq_getLast : ∀ (l : List String) (h : l ≠ []) (d : String),
    lastD l d = l.getLast h
  | [v], _, _ => rfl
  | v :: w :: tl, _, d => by
    have ih := lastD_eq_getLast (w :: tl) (List.cons_ne_nil w tl) v
    rw [List.getLast_cons]
    exact ih

theorem lastD_take : ∀ (l : List String) (i : Nat) (d : String) (h : i < l.length),
    lastD (l.take (i + 1)) d = l.get ⟨i, h⟩
  | v :: tl, 0, d, _ => by simp [lastD]
  | v :: tl, i + 1, d, h => by
    simp only [List.take_succ_cons, lastD, List.get]
    exact lastD_take tl i v (by simpa using h)

theorem filterMap_of_map_some {K : Type} (f : K → Option String) :
    ∀ (l : List K) (ts : List String), l.map f = ts.map some → l.filterMap f = ts
  | [], [], _ => rfl
  | [], t :: ts, h => by simp at h
  | x :: l, [], h => by simp at h
  | x :: l, t :: ts, h => by
    simp only [List.map_cons, List.cons.injEq] at h
    simp only [List.filterMap_cons, h.1]
    rw [filterMap_of_map_some f l ts h.2]

theorem poll_waits {K : Type} (rv : K → Option String) (s : Informer)
    (t : WatchRequest → Except KubeError (List (WatchItem K))) :
    (poll rv s t).waits = (preflight s).snd := by
  simp only [poll]
  cases t ((preflight s).fst.resource.watch (preflight s).fst.params (preflight s).fst.version) <;> rfl

theorem poll_request {K : Type} (rv : K → Option String) (s : Informer)
    (t : WatchRequest → Except KubeError (List (WatchItem K))) :
    (poll rv s t).request =
      (preflight s).fst.resource.watch (preflight s).fst.params (preflight s).fst.version := by
  simp only [poll]
  cases t ((preflight s).fst.resource.watch (preflight s).fst.params (preflight s).fst.version) <;> rfl

theorem preflight_not_flagged (s : Informer) (h1 : s.needs_resync = false)
    (h2 : s.needs_retry = false) : preflight s = (s, []) := by
  simp [preflight, h1, h2]

theorem preflight_fst_version (s : Informer) :
    (preflight s).fst.version = (if s.needs_resync then "0" else s.version) := by
  simp only [preflight]
  by_cases h1 : s.needs_resync <;> by_cases h2 : s.needs_retry <;>
    simp [h1, h2, Informer.reset]

theorem preflight_fst_flags (s : Informer) :
    (preflight s).fst.needs_resync = false ∧ (preflight s).fst.needs_retry = false := by
  simp only [preflight]
  by_cases h1 : s.needs_resync <;> by_cases h2 : s.needs_retry <;>
    simp [h1, h2, Informer.reset]

theorem preflight_fst_frame (s : Informer) :
    (preflight s).fst.resource = s.resource ∧ (preflight s).fst.params = s.params := by
  simp only [preflight]
  by_cases h1 : s.needs_resync <;> by_cases h2 : s.needs_retry <;>
    simp [h1, h2, Informer.reset]

theorem preflight_snd (s : Informer) :
    (preflight s).snd = (if s.needs_resync || s.needs_retry then [10] else []) := by
  simp only [preflight]
  split <;> rfl

theorem watch_resourceVersion (r : Resource) (p : ListParams) (v : String) :
    (Resource.watch r p v).resourceVersion = v := rfl

/-
The claim theorems.
-/

/-- Claim C1: the spec (and the source's own doc comment, which promises
"if we failed an initial poll, we will retry ... we wait 10s between each
attempt") says an open failure sets the needs-retry flag to true so the
next `poll()` backs off. The source instead executes
`*self.needs_retry.lock().await = false` in the failure branch: on a
fresh session whose transport open fails, the flag stays false and the
immediately following `poll()` performs no backoff wait at all. -/
theorem open_failure_sets_retry_false :
    (poll rvId (Informer.new r0 p0) failT).state.needs_retry = false
    ∧ (poll rvId (poll rvId (Informer.new r0 p0) failT).state failT).waits = [] := by
  constructor <;> rfl

/-- Claim C2: after a 410-coded in-stream Error event is observed while
draining the wrapped stream, the needs-resync flag is set, and the next
`poll()` call performs the backoff wait and issues its watch request
with the sentinel token "0", regardless of the token value before the
error. -/
theorem gone_triggers_resync {K K2 : Type} (rv : K → Option String)
    (rv2 : K2 → Option String) (s : Informer) (evs : List (WatchItem K))
    (t2 : WatchRequest → Except KubeError (List (WatchItem K2)))
    (hg : evs.any isGoneItem = true) :
    (poll rv s (fun _ => Except.ok evs)).state.needs_resync = true
    ∧ (poll rv2 (poll rv s (fun _ => Except.ok evs)).state t2).request.resourceVersion = "0"
    ∧ (poll rv2 (poll rv s (fun _ => Except.ok evs)).state t2).waits = [10] := by
  have hstate : (poll rv s (fun _ => Except.ok evs)).state
      = (processStream rv (preflight s).fst evs).fst := rfl
  have hres : (poll rv s (fun _ => Except.ok evs)).state.needs_resync = true := by
    rw [hstate, processStream_needs_resync, hg, Bool.or_true]
  refine ⟨hres, ?_, ?_⟩
  · rw [poll_request, watch_resourceVersion, preflight_fst_version, hres]
    rfl
  · rw [poll_waits, preflight_snd, hres]
    rfl

theorem gone_triggers_resync_witness :
    (poll rvId s42 (fun _ => Except.ok goneEvs)).state.needs_resync = true
    ∧ (poll rvId (poll rvId s42 (fun _ => Except.ok goneEvs)).state emptyT).request.resourceVersion = "0"
    ∧ (poll rvId (poll rvId s42 (fun _ => Except.ok goneEvs)).state emptyT).waits = [10] :=
  gone_triggers_resync rvId rvId s42 goneEvs emptyT (by decide)

/-- Claim C3: when every item of a successfully opened stream is an
Added/Modified/Deleted event whose entity reports a version token (the
token list being `toks`), draining the wrapped stream updates the resume
token to each event's token in order, and the session's version after
draining equals the last event's token. -/
theorem poll_tracks_event_tokens {K : Type} (rv : K → Option String) (s : Informer)
    (evs : List (WatchItem K)) (toks : List String)
    (htoks : evs.map (versionUpdate rv) = toks.map some) (hne : toks ≠ []) :
    (poll rv s (fun _ => Except.ok evs)).state.version = toks.getLast hne
    ∧ ∀ (i : Nat) (hi : i < toks.length),
        (processStream rv (preflight s).fst (evs.take (i + 1))).fst.version
          = toks.get ⟨i, hi⟩ := by
  have hfm : evs.filterMap (versionUpdate rv) = toks :=
    filterMap_of_map_some (versionUpdate rv) evs toks htoks
  constructor
  · have hstate : (poll rv s (fun _ => Except.ok evs)).state
        = (processStream rv (preflight s).fst evs).fst := rfl
    rw [hstate, processStream_version, hfm, lastD_eq_getLast toks hne]
  · intro i hi
    have hmt : (evs.take (i + 1)).map (versionUpdate rv)
        = (toks.take (i + 1)).map some := by
      rw [List.map_take, List.map_take, htoks]
    have hfmt : (evs.take (i + 1)).filterMap (versionUpdate rv) = toks.take (i + 1) :=
      filterMap_of_map_some (versionUpdate rv) _ _ hmt
    rw [processStream_version, hfmt, lastD_take toks i _ hi]

theorem poll_tracks_event_tokens_witness :
    (poll rvId s42 (fun _ => Except.ok trackEvs)).state.version = "3" := by
  have h := poll_tracks_event_tokens rvId s42 trackEvs ["1", "3"] (by decide) (by decide)
  exact h.1

/-- Claim C4: the pre-flight check of `poll()` performs exactly one
10-second backoff wait when either recovery flag is set and none
otherwise, resets the resume token to the sentinel exactly when
needs-resync was set, always leaves both flags cleared and the
descriptor and params untouched, and the request is built from the
post-pre-flight token. -/
theorem preflight_backoff_spec {K : Type} (rv : K → Option String) (s : Informer)
    (t : WatchRequest → Except KubeError (List (WatchItem K))) :
    (poll rv s t).waits = (if s.needs_resync || s.needs_retry then [10] else [])
    ∧ (preflight s).fst.version = (if s.needs_resync then "0" else s.version)
    ∧ (preflight s).fst.needs_resync = false
    ∧ (preflight s).fst.needs_retry = false
    ∧ (preflight s).fst.resource = s.resource
    ∧ (preflight s).fst.params = s.params
    ∧ (poll rv s t).request.resourceVersion = (if s.needs_resync then "0" else s.version) := by
  refine ⟨?_, preflight_fst_version s, (preflight_fst_flags s).1, (preflight_fst_flags s).2,
    (preflight_fst_frame s).1, (preflight_fst_frame s).2, ?_⟩
  · rw [poll_waits, preflight_snd]
  · rw [poll_request, watch_resourceVersion, preflight_fst_version]

/-- Claim C5: the wrapped sequence returned by `poll()` yields exactly
the raw items of the transport's stream, in order and unchanged — the
interception stage never drops, reorders, filters, or mutates items. -/
theorem wrapped_stream_passthrough {K : Type} (rv : K → Option String) (s : Informer)
    (evs : List (WatchItem K)) :
    (processStream rv s evs).snd = evs
    ∧ (poll rv s (fun _ => Except.ok evs)).result = Except.ok evs := by
  refine ⟨processStream_snd rv s evs, ?_⟩
  have h : (poll rv s (fun _ => Except.ok evs)).result
      = Except.ok (processStream rv (preflight s).fst evs).snd := rfl
  rw [h, processStream_snd]

/-- Claim C6: starting from a session with clear flags, a
connection-level open failure leaves the resume token unchanged, the
next `poll()` call issues its request with that same token, and on the
success path the final token is determined solely by the version tokens
carried by the observed Added/Modified/Deleted events (falling back to
the prior token when there are none). -/
theorem open_failure_preserves_token {K K2 : Type} (rv : K → Option String)
    (rv2 : K2 → Option String) (s : Informer) (e : KubeError)
    (t2 : WatchRequest → Except KubeError (List (WatchItem K2)))
    (h1 : s.needs_resync = false) (h2 : s.needs_retry = false) :
    (poll rv s (fun _ => Except.error e)).state.version = s.version
    ∧ (poll rv2 (poll rv s (fun _ => Except.error e)).state t2).request.resourceVersion
        = s.version
    ∧ ∀ evs : List (WatchItem K),
        (poll rv s (fun _ => Except.ok evs)).state.version
          = lastD (evs.filterMap (versionUpdate rv)) s.version := by
  have hpf : preflight s = (s, []) := preflight_not_flagged s h1 h2
  have hstate : (poll rv s (fun _ => Except.error e)).state
      = { (preflight s).fst with needs_retry := false } := rfl
  have hv : (poll rv s (fun _ => Except.error e)).state.version = s.version := by
    rw [hstate, hpf]
  have hres : (poll rv s (fun _ => Except.error e)).state.needs_resync = false := by
    rw [hstate, hpf]
    exact h1
  refine ⟨hv, ?_, ?_⟩
  · rw [poll_request, watch_resourceVersion, preflight_fst_version, hres]
    simpa using hv
  · intro evs
    have h3 : (poll rv s (fun _ => Except.ok evs)).state
        = (processStream rv (preflight s).fst evs).fst := rfl
    rw [h3, processStream_version, hpf]

theorem open_failure_preserves_token_witness :
    (poll rvId s42 (fun _ => Except.error kerr0)).state.version = "42"
    ∧ (poll rvId (poll rvId s42 (fun _ => Except.error kerr0)).state emptyT).request.resourceVersion
        = "42" := by
  have h := open_failure_preserves_token rvId rvId s42 kerr0 emptyT rfl rfl
  exact ⟨h.1, h.2.1⟩

/-- Claim C7: on a freshly constructed session, `init_from(v)` overrides
the resume token so that the immediately following `poll()` issues its
watch request with exactly the token `v`. -/
theorem init_from_sets_request_token {K : Type} (rv : K → Option String)
    (r : Resource) (p : ListParams) (v : String)
    (t : WatchRequest → Except KubeError (List (WatchItem K))) :
    (poll rv ((Informer.new r p).init_from v) t).request.resourceVersion = v := by
  rw [poll_request, watch_resourceVersion, preflight_fst_version]
  rfl

/-- Claim C8: items that are in-stream Error events with a status code
other than 410, or transport-level item failures, cause no state
mutation at all — draining a stream of only such items returns the
session state unchanged and yields every item unchanged. -/
theorem non_gone_errors_no_mutation {K : Type} (rv : K → Option String) (s : Informer) :
    ∀ (evs : List (WatchItem K)), (∀ it ∈ evs, benignItem it = true) →
      processStream rv s evs = (s, evs)
  | [], _ => rfl
  | item :: rest, hb => by
    have h1 : processEvent rv s item = s :=
      processEvent_benign rv s item (hb item (List.mem_cons_self item rest))
    have h2 : processStream rv s rest = (s, rest) :=
      non_gone_errors_no_mutation rv s rest
        (fun it hit => hb it (List.mem_cons_of_mem item hit))
    simp [processStream, h1, h2]

theorem non_gone_errors_no_mutation_witness :
    processStream rvId s42 benignEvs = (s42, benignEvs) :=
  non_gone_errors_no_mutation rvId s42 benignEvs (by decide)

/-- Claim C9: a successful Added/Modified/Deleted event whose entity
reports no version token leaves the resume token (indeed the whole
session state) unchanged, is not treated as an error, and is still
yielded to the caller unchanged. -/
theorem missing_token_skips_update {K : Type} (rv : K → Option String) (s : Informer)
    (o : K) (hrv : rv o = none) :
    processEvent rv s (Except.ok (WatchEvent.Added o)) = s
    ∧ processEvent rv s (Except.ok (WatchEvent.Modified o)) = s
    ∧ processEvent rv s (Except.ok (WatchEvent.Deleted o)) = s
    ∧ processStream rv s [Except.ok (WatchEvent.Added o)]
        = (s, [Except.ok (WatchEvent.Added o)]) := by
  have ha : processEvent rv s (Except.ok (WatchEvent.Added o)) = s := by
    simp [processEvent, hrv]
  have hm : processEvent rv s (Except.ok (WatchEvent.Modified o)) = s := by
    simp [processEvent, hrv]
  have hd : processEvent rv s (Except.ok (WatchEvent.Deleted o)) = s := by
    simp [processEvent, hrv]
  exact ⟨ha, hm, hd, by simp [processStream, ha]⟩

theorem missing_token_skips_update_witness :
    processEvent rvId s42 (Except.ok (WatchEvent.Added (none : Option String))) = s42
    ∧ processEvent rvId s42 (Except.ok (WatchEvent.Modified (none : Option String))) = s42
    ∧ processEvent rvId s42 (Except.ok (WatchEvent.Deleted (none : Option String))) = s42
    ∧ processStream rvId s42 [Except.ok (WatchEvent.Added (none : Option String))]
        = (s42, [Except.ok (WatchEvent.Added (none : Option String))]) :=
  missing_token_skips_update rvId s42 none rfl

/-- Claim C10: `reset()` sets the resume token to the sentinel "0" and
`init_from(v)` sets it to `v`; both leave the needs-resync flag, the
needs-retry flag, the resource descriptor and the query parameters
unchanged. -/
theorem reset_init_from_frame (s : Informer) (v : String) :
    s.reset.version = "0" ∧ s.reset.needs_resync = s.needs_resync
    ∧ s.reset.needs_retry = s.needs_retry
    ∧ s.reset.resource = s.resource ∧ s.reset.params = s.params
    ∧ (s.init_from v).version = v
    ∧ (s.init_from v).needs_resync = s.needs_resync
    ∧ (s.init_from v).needs_retry = s.needs_retry
    ∧ (s.init_from v).resource = s.resource
    ∧ (s.init_from v).params = s.params :=
  ⟨rfl, rfl, rfl, rfl, rfl, rfl, rfl, rfl, rfl, rfl⟩

end KubeRuntime
